import Mathlib

/-!
# netspeed-lite: shallow embedding of the scheduled execution engine

This file embeds the core of the `netspeed-lite` repository (the Scheduler
in `src/scheduler.rs`, the Process Runner in `src/runner.rs`, and the
configuration loader in `src/config.rs`) as executable Lean definitions and
proves properties of the natural-language specification against them.

Modelling conventions:
* Absolute instants (`chrono::DateTime<Utc>`) are nanoseconds since the epoch,
  as `Int` (`NanoTime`).
* A `chrono_tz::Tz` timezone is modelled as a fixed UTC offset in seconds.
  This is exact for `UTC` and any fixed-offset zone; DST transitions are not
  modelled, so the `LocalResult::single()` failure of
  `Tz::with_ymd_and_hms` occurs in the model exactly when the requested hour
  is outside `0..=23` (which is also a real failure mode of the source: at
  local hour 23 the source requests hour 24).
* The external libraries `chrono_tz` (timezone name parsing) and `cron`
  (expression parsing and upcoming-time evaluation) are passed to the
  embedded functions as explicit function arguments, mirroring the call
  sites in the source; theorems that need their documented behaviour take
  it as a hypothesis.
* Rust `f64` values that flow through the runner's JSON parsing are modelled
  as exact rationals (`ℚ`); JSON numbers are never NaN, and the magnitudes
  in play make the * 8 and / 1000 normalizations exact.
* Rust panics (`expect`) are modelled as `Except Panic` error values.
* Machine integers carry their width explicitly: the `u64 as i64` cast in
  the interval schedule is a two's-complement wrap (`i64_wrap`), and the
  panic of chrono's `Duration::seconds` beyond `i64::MAX / 1000` seconds is
  a distinct error value.
-/

/-- Nanoseconds since the Unix epoch, UTC (model of `chrono::DateTime<Utc>`). -/
abbrev NanoTime := Int

def nsPerSec : Int := 1000000000

/-- 60 seconds. -/
def nsPerMinute : Int := 60000000000

/-- 3600 seconds. -/
def nsPerHour : Int := 3600000000000

/-- 24 hours. -/
def nsPerDay : Int := 86400000000000

deriving instance DecidableEq for Except

/-- Model of a `chrono_tz::Tz` value: a fixed UTC offset in seconds. -/
structure Tz where
  offsetSeconds : Int
deriving DecidableEq, Repr

/-- Local civil time in nanoseconds, of an absolute instant under a timezone:
model of `DateTime::with_timezone(&tz)` followed by civil-field access. -/
def toLocal (tz : Tz) (t : NanoTime) : Int :=
  t + tz.offsetSeconds * nsPerSec

/-- Model of `now_tz.hour()` (0..=23). -/
def localHour (tz : Tz) (t : NanoTime) : Int :=
  toLocal tz t % nsPerDay / nsPerHour

/-- Model of `now_tz.minute()` (0..=59). -/
def localMinute (tz : Tz) (t : NanoTime) : Int :=
  toLocal tz t % nsPerHour / nsPerMinute

/-- Model of `now_tz.second()` (0..=59). -/
def localSecond (tz : Tz) (t : NanoTime) : Int :=
  toLocal tz t % nsPerMinute / nsPerSec

/-- Model of `now_tz.nanosecond()`. -/
def localNanosecond (tz : Tz) (t : NanoTime) : Int :=
  toLocal tz t % nsPerSec

/-- An instant lies exactly on a local top-of-hour (minute 0, second 0,
sub-second 0) in the given timezone. -/
def isTopOfHour (tz : Tz) (t : NanoTime) : Prop :=
  localMinute tz t = 0 ∧ localSecond tz t = 0 ∧ localNanosecond tz t = 0

instance (tz : Tz) (t : NanoTime) : Decidable (isTopOfHour tz t) := by
  unfold isTopOfHour; infer_instance

/-- Model of `tz.with_ymd_and_hms(year, month, day, h, 0, 0).single()` where
`year`/`month`/`day` are the local civil date of `t`: the absolute instant of
local hour `h` on `t`'s local day, or `none` when the components do not
resolve to a valid local timestamp (in this fixed-offset model, exactly when
`h` is not a valid hour of day). -/
def with_ymd_and_hms_hour (tz : Tz) (t : NanoTime) (h : Int) : Option NanoTime :=
  if 0 ≤ h ∧ h ≤ 23 then
    some ((toLocal tz t / nsPerDay) * nsPerDay + h * nsPerHour
      - tz.offsetSeconds * nsPerSec)
  else
    none

/-- `src/config.rs`: `ScheduleMode`. -/
inductive ScheduleMode where
  | hourlyAligned
  | interval
  | cron
deriving DecidableEq, Repr

/-- `src/config.rs`: `ScheduleConfig`. -/
structure ScheduleConfig where
  mode : ScheduleMode
  interval_seconds : Nat
  cron_expression : Option String
  timezone : String
  allow_overlap : Bool
deriving DecidableEq, Repr

/-- `src/config.rs`: `SpeedtestConfig`. -/
structure SpeedtestConfig where
  command : String
  args : List String
  timeout_seconds : Nat
deriving DecidableEq, Repr

/-- `src/config.rs`: `NtfyConfig`. -/
structure NtfyConfig where
  url : String
  token : Option String
  title : String
  tags : String
  priority : Nat
  click_url : Option String
deriving DecidableEq, Repr

/-- `src/config.rs`: `NotifyOn`. -/
structure NotifyOn where
  success : Bool
  failure : Bool
deriving DecidableEq, Repr

/-- `src/config.rs`: `ServerConfig`. -/
structure ServerConfig where
  bind_address : String
deriving DecidableEq, Repr

/-- `src/config.rs`: `Config`. -/
structure Config where
  server : ServerConfig
  schedule : ScheduleConfig
  speedtest : SpeedtestConfig
  ntfy : Option NtfyConfig
  notify_on : NotifyOn
deriving DecidableEq, Repr

/-- Decimal-digit accumulation over a character list: `none` as soon as a
non-digit appears. -/
def parseNatAux : List Char → Nat → Option Nat
  | [], acc => some acc
  | c :: cs, acc =>
    if 48 ≤ c.toNat ∧ c.toNat ≤ 57 then
      parseNatAux cs (acc * 10 + (c.toNat - 48))
    else
      none

/-- Model of Rust `str::parse::<u64>()`: optional leading `+`, at least one
decimal digit, value below `2^64`. -/
def parseU64 (s : String) : Option Nat :=
  let ds := match s.data with
    | '+' :: rest => rest
    | l => l
  if ds.isEmpty then none
  else
    match parseNatAux ds 0 with
    | some n => if n < 2 ^ 64 then some n else none
    | none => none

/-- Model of Rust `str::parse::<u8>()`. -/
def parseU8 (s : String) : Option Nat :=
  let ds := match s.data with
    | '+' :: rest => rest
    | l => l
  if ds.isEmpty then none
  else
    match parseNatAux ds 0 with
    | some n => if n < 2 ^ 8 then some n else none
    | none => none

/-- One list of characters begins with another. -/
def startsWithChars : List Char → List Char → Bool
  | [], _ => true
  | _ :: _, [] => false
  | n :: ns, h :: hs => n == h && startsWithChars ns hs

/-- A needle occurs somewhere in a haystack. -/
def containsChars (needle : List Char) : List Char → Bool
  | [] => startsWithChars needle []
  | h :: hs => startsWithChars needle (h :: hs) || containsChars needle hs

/-- Model of Rust `str::contains(&str)`: substring occurrence. -/
def strContains (hay needle : String) : Bool :=
  containsChars needle.data hay.data

/-- Model of Rust `str::parse::<bool>()`: exactly `"true"` or `"false"`. -/
def parseBoolStr (s : String) : Option Bool :=
  if s = "true" then some true
  else if s = "false" then some false
  else none

/-- `src/config.rs` lines 73-81: mapping of `NETSPEED_SCHEDULE_MODE`. -/
def scheduleModeOfString (s : String) : Except String ScheduleMode :=
  if s = "hourly_aligned" then .ok .hourlyAligned
  else if s = "interval" then .ok .interval
  else if s = "cron" then .ok .cron
  else .error ("Invalid schedule mode: " ++ s)

/-- `src/config.rs`: `Config::from_env`. The process environment is the
function `env` (a missing variable is `none`); `tzParse` is the
`chrono_tz` timezone-name parser (`str::parse::<Tz>`), passed in because it
is an external library. Faithful to the source: the timezone is validated,
`NETSPEED_TIMEOUT_SECONDS` must be positive, and the cron expression is read
from `NETSPEED_SCHEDULE` without any validation. -/
def from_env (tzParse : String → Option Tz) (env : String → Option String) :
    Except String Config :=
  match scheduleModeOfString ((env "NETSPEED_SCHEDULE_MODE").getD "hourly_aligned") with
  | .error e => .error e
  | .ok schedule_mode =>
    match parseU64 ((env "NETSPEED_INTERVAL_SECONDS").getD "3600") with
    | none => .error "Invalid NETSPEED_INTERVAL_SECONDS"
    | some interval_seconds =>
      match tzParse ((env "NETSPEED_TIMEZONE").getD "Europe/Brussels") with
      | none =>
          .error ("Invalid timezone: " ++ (env "NETSPEED_TIMEZONE").getD "Europe/Brussels")
      | some _ =>
        match parseBoolStr ((env "NETSPEED_ALLOW_OVERLAP").getD "false") with
        | none => .error "Invalid NETSPEED_ALLOW_OVERLAP"
        | some allow_overlap =>
          match parseU64 ((env "NETSPEED_TIMEOUT_SECONDS").getD "120") with
          | none => .error "Invalid NETSPEED_TIMEOUT_SECONDS"
          | some timeout_seconds =>
            if timeout_seconds = 0 then
              .error "NETSPEED_TIMEOUT_SECONDS must be greater than 0"
            else
              .ok
                { server := { bind_address := (env "NETSPEED_BIND").getD "0.0.0.0:9109" }
                  schedule :=
                    { mode := schedule_mode
                      interval_seconds := interval_seconds
                      cron_expression := env "NETSPEED_SCHEDULE"
                      timezone := (env "NETSPEED_TIMEZONE").getD "Europe/Brussels"
                      allow_overlap := allow_overlap }
                  speedtest :=
                    { command := "speedtest"
                      args := ["--format=json", "--accept-license", "--accept-gdpr"]
                      timeout_seconds := timeout_seconds }
                  ntfy := (env "NETSPEED_NTFY_URL").map (fun url =>
                    { url := url
                      token := env "NETSPEED_NTFY_TOKEN"
                      title := (env "NETSPEED_NTFY_TITLE").getD "netspeed-lite"
                      tags := (env "NETSPEED_NTFY_TAGS").getD "speedtest,isp"
                      priority :=
                        Nat.min (Nat.max
                          ((parseU8 ((env "NETSPEED_NTFY_PRIORITY").getD "3")).getD 3) 1) 5
                      click_url := env "NETSPEED_NTFY_CLICK" })
                  notify_on :=
                    { success :=
                        strContains ((env "NETSPEED_NOTIFY_ON").getD "success,failure")
                          "success"
                      failure :=
                        strContains ((env "NETSPEED_NOTIFY_ON").getD "success,failure")
                          "failure" } }

/-- The distinct runtime panics (`expect`) reachable from
`Scheduler::calculate_next_run` in `src/scheduler.rs`. -/
inductive SchedulerPanic where
  | missingCronExpression
  | invalidCronExpression
  | invalidTimezone
  | durationOutOfBounds
deriving DecidableEq, Repr

/-- Model of Rust `u64 as i64`: two's-complement wrap, so values at or above
`2^63` become negative. -/
def i64_wrap (n : Nat) : Int :=
  if n < 2 ^ 63 then (n : Int) else (n : Int) - 2 ^ 64

/-- chrono bounds `TimeDelta` by `i64::MAX` milliseconds, so
`Duration::seconds(s)` panics when `|s|` exceeds `i64::MAX / 1000`. -/
def chronoMaxSeconds : Int := 9223372036854775

/-- `src/scheduler.rs` lines 112-141, arithmetic core of
`Scheduler::calculate_next_aligned_run` after the timezone has been parsed:
if `now` is exactly at a local top of hour, `now + 1h`; otherwise the
current local day's hour `hour + 1`, falling back to `now + 1h` when that
does not resolve. -/
def calculate_next_aligned_core (tz : Tz) (now : NanoTime) : NanoTime :=
  if localMinute tz now = 0 ∧ localSecond tz now = 0 ∧ localNanosecond tz now = 0 then
    now + nsPerHour
  else
    match with_ymd_and_hms_hour tz now (localHour tz now + 1) with
    | some t => t
    | none => now + nsPerHour

/-- `src/scheduler.rs`: `Scheduler::calculate_next_aligned_run`, including
the `timezone.parse().expect("Invalid timezone")` step. -/
def calculate_next_aligned_run (tzParse : String → Option Tz)
    (sched : ScheduleConfig) (now : NanoTime) : Except SchedulerPanic NanoTime :=
  match tzParse sched.timezone with
  | none => .error .invalidTimezone
  | some tz => .ok (calculate_next_aligned_core tz now)

/-- `src/scheduler.rs` lines 89-110: `Scheduler::calculate_next_cron_run`.
`cronParse` models `cron::Schedule::from_str` and `upcoming` models
`Schedule::upcoming(tz).next()` evaluated at the current instant `now`; both
belong to the external `cron` crate. The three `expect` calls are the three
panic values. -/
def calculate_next_cron_run {C : Type} (cronParse : String → Option C)
    (upcoming : C → Tz → NanoTime → Option NanoTime)
    (tzParse : String → Option Tz)
    (sched : ScheduleConfig) (now : NanoTime) : Except SchedulerPanic NanoTime :=
  match sched.cron_expression with
  | none => .error .missingCronExpression
  | some expr =>
    match cronParse expr with
    | none => .error .invalidCronExpression
    | some schedule =>
      match tzParse sched.timezone with
      | none => .error .invalidTimezone
      | some tz =>
        .ok ((upcoming schedule tz now).getD (now + 60 * nsPerSec))

/-- `src/scheduler.rs` lines 143-145: `Scheduler::calculate_next_interval_run`,
`Utc::now() + Duration::seconds(interval_seconds as i64)`. The `as i64` cast
wraps (modelled by `i64_wrap`), and `Duration::seconds` panics when the
wrapped seconds value exceeds chrono's `TimeDelta` bound in magnitude —
that panic is the `durationOutOfBounds` error. -/
def calculate_next_interval_run (sched : ScheduleConfig) (now : NanoTime) :
    Except SchedulerPanic NanoTime :=
  let secs := i64_wrap sched.interval_seconds
  if secs < -chronoMaxSeconds ∨ chronoMaxSeconds < secs then
    .error .durationOutOfBounds
  else
    .ok (now + secs * nsPerSec)

/-- `src/scheduler.rs` lines 81-87: `Scheduler::calculate_next_run`. -/
def calculate_next_run {C : Type} (cronParse : String → Option C)
    (upcoming : C → Tz → NanoTime → Option NanoTime)
    (tzParse : String → Option Tz)
    (sched : ScheduleConfig) (now : NanoTime) : Except SchedulerPanic NanoTime :=
  match sched.mode with
  | .hourlyAligned => calculate_next_aligned_run tzParse sched now
  | .interval => calculate_next_interval_run sched now
  | .cron => calculate_next_cron_run cronParse upcoming tzParse sched now

/-! ## Process Runner (`src/runner.rs`) -/

/-- `src/runner.rs` lines 17-24: `SpeedtestResult`. `f64` is modelled as `ℚ`. -/
structure SpeedtestResult where
  download_bps : ℚ
  upload_bps : ℚ
  latency_seconds : ℚ
  jitter_seconds : Option ℚ
  packet_loss_ratio : Option ℚ
deriving DecidableEq, Repr

/-- `src/runner.rs` lines 32-51: `ErrorCategory`. -/
inductive ErrorCategory where
  | timeout (seconds : Nat)
  | commandNotFound (name : String)
  | commandFailed (exitCode : Int)
  | invalidOutput (detail : String)
  | missingFields (names : String)
  | internal (detail : String)
deriving DecidableEq, Repr

/-- A JSON value as produced by `serde_json` from valid JSON text; numbers
are exact rationals (JSON has no NaN or infinities). -/
inductive Json where
  | null
  | bool (b : Bool)
  | num (q : ℚ)
  | str (s : String)
  | arr (elems : List Json)
  | obj (fields : List (String × Json))

/-- Look up a field of a JSON object (first occurrence), `none` otherwise. -/
def Json.get? (j : Json) (key : String) : Option Json :=
  match j with
  | .obj fields => fields.lookup key
  | _ => none

/-- `src/runner.rs` lines 60-63: `BandwidthInfo`. -/
structure BandwidthInfo where
  bandwidth : Option ℚ
deriving DecidableEq, Repr

/-- `src/runner.rs` lines 65-69: `PingInfo`. -/
structure PingInfo where
  latency : Option ℚ
  jitter : Option ℚ
deriving DecidableEq, Repr

/-- `src/runner.rs` lines 53-58: `SpeedtestOutput`. -/
structure SpeedtestOutput where
  download : Option BandwidthInfo
  upload : Option BandwidthInfo
  ping : Option PingInfo
deriving DecidableEq, Repr

/-- serde deserialization of an `Option<f64>` field value: absent is handled
by the caller, `null` is `None`, a number is `Some`, anything else is a type
error. -/
def decodeOptNum (j : Json) : Except String (Option ℚ) :=
  match j with
  | .null => .ok none
  | .num q => .ok (some q)
  | _ => .error "invalid type: expected f64"

/-- serde deserialization of an optional `Option<f64>` struct field. -/
def decodeOptNumField (j : Json) (key : String) : Except String (Option ℚ) :=
  match j.get? key with
  | none => .ok none
  | some v => decodeOptNum v

/-- serde deserialization of `BandwidthInfo` (unknown fields ignored). -/
def decodeBandwidthInfo (j : Json) : Except String BandwidthInfo :=
  match j with
  | .obj _ => do
    let b ← decodeOptNumField j "bandwidth"
    .ok { bandwidth := b }
  | _ => .error "invalid type: expected struct BandwidthInfo"

/-- serde deserialization of `PingInfo` (unknown fields ignored). -/
def decodePingInfo (j : Json) : Except String PingInfo :=
  match j with
  | .obj _ => do
    let l ← decodeOptNumField j "latency"
    let jt ← decodeOptNumField j "jitter"
    .ok { latency := l, jitter := jt }
  | _ => .error "invalid type: expected struct PingInfo"

/-- serde deserialization of an optional struct field via `dec`. -/
def decodeOptStructField {α : Type} (dec : Json → Except String α)
    (j : Json) (key : String) : Except String (Option α) :=
  match j.get? key with
  | none => .ok none
  | some .null => .ok none
  | some v => (dec v).map some

/-- serde deserialization of `SpeedtestOutput`: the `serde_json::from_str`
step of `parse_speedtest_output` after JSON text parsing (unknown fields
ignored, all three fields optional). -/
def decodeSpeedtestOutput (j : Json) : Except String SpeedtestOutput :=
  match j with
  | .obj _ => do
    let d ← decodeOptStructField decodeBandwidthInfo j "download"
    let u ← decodeOptStructField decodeBandwidthInfo j "upload"
    let p ← decodeOptStructField decodePingInfo j "ping"
    .ok { download := d, upload := u, ping := p }
  | _ => .error "invalid type: expected struct SpeedtestOutput"

/-- `src/runner.rs` lines 123-185: `parse_speedtest_output`, on a payload
that is valid JSON text (the JSON value `j`). Field extraction order,
unit normalization (bytes/s * 8, ms / 1000) and the validation checks follow
the source line by line; `is_nan()` is constantly false in the `ℚ` model. -/
def parse_speedtest_output (j : Json) : Except ErrorCategory SpeedtestResult :=
  match decodeSpeedtestOutput j with
  | .error e => .error (ErrorCategory.invalidOutput ("JSON parse error: " ++ e))
  | .ok output =>
    match output.download.bind BandwidthInfo.bandwidth with
    | none => .error (ErrorCategory.missingFields "download.bandwidth")
    | some db =>
      match output.upload.bind BandwidthInfo.bandwidth with
      | none => .error (ErrorCategory.missingFields "upload.bandwidth")
      | some ub =>
        match output.ping.bind PingInfo.latency with
        | none => .error (ErrorCategory.missingFields "ping.latency")
        | some l =>
          if db * 8 < 0 then
            .error (ErrorCategory.invalidOutput "Invalid download speed")
          else if ub * 8 < 0 then
            .error (ErrorCategory.invalidOutput "Invalid upload speed")
          else if l / 1000 < 0 then
            .error (ErrorCategory.invalidOutput "Invalid latency")
          else
            Except.ok
              { download_bps := db * 8
                upload_bps := ub * 8
                latency_seconds := l / 1000
                jitter_seconds := (output.ping.bind PingInfo.jitter).map (fun x => x / 1000)
                packet_loss_ratio := none }

/-- Model of `std::process::ExitStatus`: `success()` and `code()` (the code
is `none` when the process was killed by a signal). -/
structure ExitStatus where
  success : Bool
  code : Option Int
deriving DecidableEq, Repr

/-- Behaviour of a spawned external process, as observed by the runner:
wall-clock seconds until exit (`none`: never exits), an optional
`wait_with_output` I/O failure, the exit status, and standard output
(`none`: the bytes are not valid JSON text; `some j`: valid JSON parsing to
`j`). -/
structure ProcBehavior where
  runSeconds : Option Nat
  waitError : Option String
  status : ExitStatus
  stdout : Option Json

/-- Outcome of `Command::spawn` in `execute_speedtest`. -/
inductive SpawnResult where
  | notFound
  | spawnError (msg : String)
  | spawned (p : ProcBehavior)

/-- `tokio::time::timeout(d, child.wait_with_output())` completes iff the
process exits within the bound. -/
def completesWithin (p : ProcBehavior) (timeoutSeconds : Nat) : Bool :=
  match p.runSeconds with
  | some r => r ≤ timeoutSeconds
  | none => false

/-- `String::from_utf8_lossy` + `parse_speedtest_output` on raw stdout. -/
def parseStdout (stdout : Option Json) : Except ErrorCategory SpeedtestResult :=
  match stdout with
  | none => .error (ErrorCategory.invalidOutput "JSON parse error: invalid JSON text")
  | some j => parse_speedtest_output j

/-- `src/runner.rs` lines 89-121: `execute_speedtest`. Returns the outcome
and whether the spawned child process is still running after the function
returns. The source builds the `tokio::process::Command` without
`kill_on_drop(true)` and never calls `kill`, so on the timeout path the
dropped `wait_with_output` future leaves the child running (tokio's
documented drop behaviour); on every other path the child has exited. -/
def execute_speedtest (command : String) (spawn : SpawnResult)
    (timeout_seconds : Nat) : Except ErrorCategory SpeedtestResult × Bool :=
  match spawn with
  | .notFound => (.error (ErrorCategory.commandNotFound command), false)
  | .spawnError msg =>
      (.error (ErrorCategory.internal ("Failed to spawn command: " ++ msg)), false)
  | .spawned p =>
    if completesWithin p timeout_seconds then
      match p.waitError with
      | some msg =>
          (.error (ErrorCategory.internal ("Failed to wait for command: " ++ msg)), false)
      | none =>
        if p.status.success then
          (parseStdout p.stdout, false)
        else
          (.error (ErrorCategory.commandFailed (p.status.code.getD (-1))), false)
    else
      (.error (ErrorCategory.timeout timeout_seconds), true)

/-! ## Scheduler run loop (`src/scheduler.rs` lines 39-79 and 147-233)

The loop is modelled from the wake point of each iteration: the overlap
check, the skip path, and `execute_run`. Metric counter updates and the
overlap flag are the mutable state; the observable actions of an iteration
are recorded as an event trace. The run loop is a single cooperative task:
`execute_run` is awaited inline, so its events are sequenced within the
iteration's trace exactly as the statements execute. -/

/-- `src/runner.rs` lines 26-30: `RunOutcome` (what `run_speedtest` hands
back to the scheduler). -/
inductive RunOutcome where
  | success (r : SpeedtestResult)
  | failure (e : ErrorCategory)

/-- Observable actions of the scheduler, in program order:
`flagSet b` is `run_in_progress.store(b, SeqCst)`; `runnerInvoked` is the
call to `run_speedtest`; `countedSuccess`/`countedFailure`/`countedSkipped`
are the `runs_total` counter increments; `notified` is `notifier.notify`. -/
inductive Event where
  | flagSet (b : Bool)
  | runnerInvoked
  | countedSuccess
  | countedFailure
  | countedSkipped
  | notified
deriving DecidableEq, Repr

/-- The scheduler's mutable state: the overlap flag
(`run_in_progress: Arc<AtomicBool>`) and the `runs_total` counters by label. -/
structure SchedState where
  run_in_progress : Bool
  skippedRuns : Nat
  successRuns : Nat
  failureRuns : Nat
deriving DecidableEq, Repr

/-- `Scheduler::new`: the flag starts false, counters at zero. -/
def initialSchedState : SchedState :=
  { run_in_progress := false, skippedRuns := 0, successRuns := 0, failureRuns := 0 }

/-- `src/scheduler.rs` lines 147-233: `Scheduler::execute_run`. Sets the
overlap flag, invokes the runner (whose result is the environment-supplied
`outcome`), updates the outcome counters and optionally notifies, and
finally clears the flag; both match arms fall through to the final
`store(false)`. Returns the new state and the iteration's event trace. -/
def execute_run (hasNotifier : Bool) (notify_on : NotifyOn)
    (s : SchedState) (outcome : RunOutcome) : SchedState × List Event :=
  let s1 := { s with run_in_progress := true }
  match outcome with
  | .success _ =>
    let s2 := { s1 with successRuns := s1.successRuns + 1 }
    let notifyTrace := if hasNotifier && notify_on.success then [Event.notified] else []
    ({ s2 with run_in_progress := false },
      Event.flagSet true :: Event.runnerInvoked :: Event.countedSuccess ::
        (notifyTrace ++ [Event.flagSet false]))
  | .failure _ =>
    let s2 := { s1 with failureRuns := s1.failureRuns + 1 }
    let notifyTrace := if hasNotifier && notify_on.failure then [Event.notified] else []
    ({ s2 with run_in_progress := false },
      Event.flagSet true :: Event.runnerInvoked :: Event.countedFailure ::
        (notifyTrace ++ [Event.flagSet false]))

/-- One iteration of `Scheduler::run` from the wake point (`src/scheduler.rs`
lines 58-78): if the overlap flag is set and overlap is disallowed, count a
skipped run and continue without executing; otherwise execute one run. -/
def schedulerIteration (allow_overlap hasNotifier : Bool) (notify_on : NotifyOn)
    (s : SchedState) (outcome : RunOutcome) : SchedState × List Event :=
  if s.run_in_progress && !allow_overlap then
    ({ s with skippedRuns := s.skippedRuns + 1 }, [Event.countedSkipped])
  else
    execute_run hasNotifier notify_on s outcome

/-- The run loop over a finite prefix of iterations, with the runner
outcomes supplied by the environment; yields the final state and the
concatenated event trace. -/
def runLoop (allow_overlap hasNotifier : Bool) (notify_on : NotifyOn) :
    SchedState → List RunOutcome → SchedState × List Event
  | s, [] => (s, [])
  | s, o :: os =>
    let step := schedulerIteration allow_overlap hasNotifier notify_on s o
    let rest := runLoop allow_overlap hasNotifier notify_on step.1 os
    (rest.1, step.2 ++ rest.2)

/-- Trace well-formedness automaton for the overlap invariant: scanning the
trace with the current flag value and the number of runner invocations since
the flag was last set, it demands that the flag is only set when clear and
only cleared when set, that the runner is invoked exactly once per
flag-true interval and only while the flag is true, that skips happen only
while the flag is clear, and that the trace ends with the flag clear. -/
def checkTrace : Bool → Nat → List Event → Bool
  | flag, _, [] => !flag
  | flag, _, Event.flagSet true :: rest => !flag && checkTrace true 0 rest
  | flag, n, Event.flagSet false :: rest => flag && n == 1 && checkTrace false 0 rest
  | flag, n, Event.runnerInvoked :: rest => flag && n == 0 && checkTrace flag (n + 1) rest
  | flag, n, Event.countedSkipped :: rest => !flag && checkTrace flag n rest
  | flag, n, _ :: rest => checkTrace flag n rest

/-! ## Library instantiations used in closed statements -/

/-- The `chrono_tz` name parser restricted to the two zone names appearing in
closed statements: `UTC`, and the default `Europe/Brussels` at its standard
(winter) offset. -/
def tzParseFixed : String → Option Tz := fun s =>
  if s = "UTC" then some { offsetSeconds := 0 }
  else if s = "Europe/Brussels" then some { offsetSeconds := 3600 }
  else none

/-- A `cron` library instantiation whose parser rejects the given expression
(the behaviour of `Schedule::from_str` on malformed input). -/
def cronParseReject : String → Option Unit := fun _ => none

/-- A `cron` library instantiation producing no upcoming firing time. -/
def upcomingNone : Unit → Tz → NanoTime → Option NanoTime := fun _ _ _ => none

/-- Environment for the C3 counterexample: Interval mode with
`NETSPEED_INTERVAL_SECONDS=0`. -/
def envInterval0 : String → Option String := fun k =>
  if k = "NETSPEED_SCHEDULE_MODE" then some "interval"
  else if k = "NETSPEED_INTERVAL_SECONDS" then some "0"
  else none

/-- The configuration `Config::from_env` produces under `envInterval0`. -/
def interval0Config : Config :=
  { server := { bind_address := "0.0.0.0:9109" }
    schedule :=
      { mode := .interval
        interval_seconds := 0
        cron_expression := none
        timezone := "Europe/Brussels"
        allow_overlap := false }
    speedtest :=
      { command := "speedtest"
        args := ["--format=json", "--accept-license", "--accept-gdpr"]
        timeout_seconds := 120 }
    ntfy := none
    notify_on := { success := true, failure := true } }

/-- Environment for the C5 failing input: Cron mode with a malformed
`NETSPEED_SCHEDULE` expression. -/
def envBadCron : String → Option String := fun k =>
  if k = "NETSPEED_SCHEDULE_MODE" then some "cron"
  else if k = "NETSPEED_SCHEDULE" then some "not a cron expression"
  else none

/-- The configuration `Config::from_env` produces under `envBadCron`: startup
succeeds although the cron expression is malformed. -/
def badCronConfig : Config :=
  { server := { bind_address := "0.0.0.0:9109" }
    schedule :=
      { mode := .cron
        interval_seconds := 3600
        cron_expression := some "not a cron expression"
        timezone := "Europe/Brussels"
        allow_overlap := false }
    speedtest :=
      { command := "speedtest"
        args := ["--format=json", "--accept-license", "--accept-gdpr"]
        timeout_seconds := 120 }
    ntfy := none
    notify_on := { success := true, failure := true } }

/-- The empty environment: every `NETSPEED_*` variable unset. -/
def envEmpty : String → Option String := fun _ => none

/-- The all-defaults configuration `Config::from_env` produces under
`envEmpty`. -/
def defaultConfig : Config :=
  { server := { bind_address := "0.0.0.0:9109" }
    schedule :=
      { mode := .hourlyAligned
        interval_seconds := 3600
        cron_expression := none
        timezone := "Europe/Brussels"
        allow_overlap := false }
    speedtest :=
      { command := "speedtest"
        args := ["--format=json", "--accept-license", "--accept-gdpr"]
        timeout_seconds := 120 }
    ntfy := none
    notify_on := { success := true, failure := true } }

/-- Environment configuring Interval mode with the u64 maximum,
18446744073709551615, which `as i64` wraps to -1. -/
def envIntervalMax : String → Option String := fun k =>
  if k = "NETSPEED_SCHEDULE_MODE" then some "interval"
  else if k = "NETSPEED_INTERVAL_SECONDS" then some "18446744073709551615"
  else none

/-- The configuration `Config::from_env` produces under `envIntervalMax`. -/
def intervalMaxConfig : Config :=
  { server := { bind_address := "0.0.0.0:9109" }
    schedule :=
      { mode := .interval
        interval_seconds := 18446744073709551615
        cron_expression := none
        timezone := "Europe/Brussels"
        allow_overlap := false }
    speedtest :=
      { command := "speedtest"
        args := ["--format=json", "--accept-license", "--accept-gdpr"]
        timeout_seconds := 120 }
    ntfy := none
    notify_on := { success := true, failure := true } }

/-- Environment configuring Interval mode with 10^16 seconds: positive after
the `as i64` cast but beyond chrono's `Duration::seconds` bound. -/
def envIntervalHuge : String → Option String := fun k =>
  if k = "NETSPEED_SCHEDULE_MODE" then some "interval"
  else if k = "NETSPEED_INTERVAL_SECONDS" then some "10000000000000000"
  else none

/-- The configuration `Config::from_env` produces under `envIntervalHuge`. -/
def intervalHugeConfig : Config :=
  { server := { bind_address := "0.0.0.0:9109" }
    schedule :=
      { mode := .interval
        interval_seconds := 10000000000000000
        cron_expression := none
        timezone := "Europe/Brussels"
        allow_overlap := false }
    speedtest :=
      { command := "speedtest"
        args := ["--format=json", "--accept-license", "--accept-gdpr"]
        timeout_seconds := 120 }
    ntfy := none
    notify_on := { success := true, failure := true } }

/-- The spec's parse round-trip example payload:
`{"download":{"bandwidth":101537500},"upload":{"bandwidth":5262500},
"ping":{"latency":18.4,"jitter":2.1}}`. -/
def examplePayload : Json :=
  Json.obj
    [("download", Json.obj [("bandwidth", Json.num 101537500)]),
     ("upload", Json.obj [("bandwidth", Json.num 5262500)]),
     ("ping", Json.obj [("latency", Json.num 18.4), ("jitter", Json.num 2.1)])]

/-- A payload with `download` present but both `upload` and `ping` missing:
two required fields are absent at once. -/
def payloadOnlyDownload : Json :=
  Json.obj [("download", Json.obj [("bandwidth", Json.num 1)])]

/-- A payload lacking `download` (the spec's missing-required-field example). -/
def payloadNoDownload : Json :=
  Json.obj
    [("upload", Json.obj [("bandwidth", Json.num 5262500)]),
     ("ping", Json.obj [("latency", Json.num 18.4)])]

/-! ## Helper lemmas: local-time arithmetic of the hourly-aligned schedule -/

theorem toLocal_add (tz : Tz) (t d : NanoTime) : toLocal tz (t + d) = toLocal tz t + d := by
  unfold toLocal
  ring

theorem toLocal_lt_iff (tz : Tz) (a b : NanoTime) : toLocal tz a < toLocal tz b ↔ a < b := by
  unfold toLocal
  constructor <;> intro h <;> linarith

theorem toLocal_le_iff (tz : Tz) (a b : NanoTime) : toLocal tz a ≤ toLocal tz b ↔ a ≤ b := by
  unfold toLocal
  constructor <;> intro h <;> linarith

/-- The boundary test of `calculate_next_aligned_run` (minute, second and
nanosecond all zero) holds exactly when local time is a multiple of an hour. -/
theorem topOfHour_iff_emod (tz : Tz) (t : NanoTime) :
    isTopOfHour tz t ↔ toLocal tz t % nsPerHour = 0 := by
  unfold isTopOfHour localMinute localSecond localNanosecond toLocal nsPerHour nsPerMinute nsPerSec
  omega

theorem localHour_bounds (tz : Tz) (t : NanoTime) :
    0 ≤ localHour tz t ∧ localHour tz t ≤ 23 := by
  unfold localHour toLocal nsPerDay nsPerHour nsPerSec
  omega

/-- When the current local hour is at most 22, the source's
`with_ymd_and_hms(..., hour + 1, 0, 0)` resolves to the instant one hour
beyond the last local top-of-hour. -/
theorem with_hour_succ_eq (tz : Tz) (t : NanoTime) (h : localHour tz t + 1 ≤ 23) :
    with_ymd_and_hms_hour tz t (localHour tz t + 1) =
      some (t + (nsPerHour - toLocal tz t % nsPerHour)) := by
  have hkey : ∀ L : Int, L % 86400000000000 / 3600000000000 + 1 ≤ 23 →
      (L / 86400000000000) * 86400000000000 +
        (L % 86400000000000 / 3600000000000 + 1) * 3600000000000
        = L + (3600000000000 - L % 3600000000000) := by
    intro L hL
    omega
  have hb := localHour_bounds tz t
  have hk' := hkey (t + tz.offsetSeconds * 1000000000)
    (by unfold localHour toLocal nsPerDay nsPerHour nsPerSec at h; exact h)
  unfold with_ymd_and_hms_hour
  rw [if_pos ⟨by omega, h⟩, Option.some_inj]
  unfold localHour toLocal nsPerDay nsPerHour nsPerSec
  linarith [hk']

theorem with_hour_succ_none (tz : Tz) (t : NanoTime) (h : ¬ localHour tz t + 1 ≤ 23) :
    with_ymd_and_hms_hour tz t (localHour tz t + 1) = none := by
  unfold with_ymd_and_hms_hour
  rw [if_neg]
  intro hc
  exact h hc.2

theorem aligned_core_of_boundary (tz : Tz) (now : NanoTime) (h : isTopOfHour tz now) :
    calculate_next_aligned_core tz now = now + nsPerHour := by
  unfold isTopOfHour at h
  unfold calculate_next_aligned_core
  rw [if_pos h]

theorem aligned_core_of_low (tz : Tz) (now : NanoTime) (h : ¬ isTopOfHour tz now)
    (h23 : localHour tz now + 1 ≤ 23) :
    calculate_next_aligned_core tz now = now + (nsPerHour - toLocal tz now % nsPerHour) := by
  unfold isTopOfHour at h
  unfold calculate_next_aligned_core
  rw [if_neg h, with_hour_succ_eq tz now h23]

theorem aligned_core_of_high (tz : Tz) (now : NanoTime) (h : ¬ isTopOfHour tz now)
    (h23 : ¬ localHour tz now + 1 ≤ 23) :
    calculate_next_aligned_core tz now = now + nsPerHour := by
  unfold isTopOfHour at h
  unfold calculate_next_aligned_core
  rw [if_neg h, with_hour_succ_none tz now h23]

/-- Outside the fallback case, the aligned-schedule result lies on the local
hour grid, exactly one slot above `now`'s slot. -/
theorem aligned_core_local (tz : Tz) (now : NanoTime)
    (h : isTopOfHour tz now ∨ localHour tz now + 1 ≤ 23) :
    toLocal tz (calculate_next_aligned_core tz now)
      = nsPerHour * (toLocal tz now / nsPerHour + 1) := by
  have hmod := Int.ediv_add_emod (toLocal tz now) nsPerHour
  by_cases hb : isTopOfHour tz now
  · rw [aligned_core_of_boundary tz now hb, toLocal_add]
    have h0 : toLocal tz now % nsPerHour = 0 := (topOfHour_iff_emod tz now).mp hb
    linarith
  · rcases h with h | h23
    · exact absurd h hb
    · rw [aligned_core_of_low tz now hb h23, toLocal_add]
      linarith

/-- Anything on the local hour grid one slot up is the least top-of-hour
strictly after `now`. -/
theorem next_top_minimal (tz : Tz) (now u r : NanoTime)
    (hr : toLocal tz r = nsPerHour * (toLocal tz now / nsPerHour + 1))
    (hnu : now < u) (hu : isTopOfHour tz u) : r ≤ u := by
  have hU : toLocal tz u % nsPerHour = 0 := (topOfHour_iff_emod tz u).mp hu
  have hUdiv := Int.ediv_add_emod (toLocal tz u) nsPerHour
  have hNdiv := Int.ediv_add_emod (toLocal tz now) nsPerHour
  have hNmod := Int.emod_nonneg (toLocal tz now) (show nsPerHour ≠ 0 by unfold nsPerHour; norm_num)
  have hlt : toLocal tz now < toLocal tz u := (toLocal_lt_iff tz now u).mpr hnu
  have hH : (0 : Int) < nsPerHour := by unfold nsPerHour; norm_num
  have hq : toLocal tz now / nsPerHour < toLocal tz u / nsPerHour := by
    by_contra hc
    push_neg at hc
    have := mul_le_mul_of_nonneg_left hc (le_of_lt hH)
    linarith
  have hq1 : toLocal tz now / nsPerHour + 1 ≤ toLocal tz u / nsPerHour := hq
  have := mul_le_mul_of_nonneg_left hq1 (le_of_lt hH)
  rw [← toLocal_le_iff tz r u, hr]
  linarith

/-- The aligned-schedule result is strictly after `now` in every case. -/
theorem aligned_core_gt (tz : Tz) (now : NanoTime) :
    now < calculate_next_aligned_core tz now := by
  have hH : (0 : Int) < nsPerHour := by unfold nsPerHour; norm_num
  by_cases hb : isTopOfHour tz now
  · rw [aligned_core_of_boundary tz now hb]
    linarith
  · by_cases h23 : localHour tz now + 1 ≤ 23
    · rw [aligned_core_of_low tz now hb h23]
      have := Int.emod_lt_of_pos (toLocal tz now) hH
      linarith
    · rw [aligned_core_of_high tz now hb h23]
      linarith

/-- Outside the fallback case, the aligned-schedule result is itself a local
top-of-hour. -/
theorem aligned_core_top (tz : Tz) (now : NanoTime)
    (h : isTopOfHour tz now ∨ localHour tz now + 1 ≤ 23) :
    isTopOfHour tz (calculate_next_aligned_core tz now) := by
  rw [topOfHour_iff_emod, aligned_core_local tz now h]
  exact Int.mul_emod_right _ _

/-! ## Claim theorems -/

/-- C4: In HourlyAligned mode, for every instant `now`,
`calculate_next_run` returns an instant strictly after `now`; when `now` is
exactly on an hour boundary it returns `now + 1h`, which is the next
top-of-hour (never the current instant); when the local hour arithmetic
resolves (target hour at most 23) it returns the least top-of-hour strictly
after `now`; and only when `with_ymd_and_hms` cannot resolve the target hour
does it fall back to `now + 1 hour`. -/
theorem aligned_next_run_top_of_hour (tz : Tz) (now : NanoTime) :
    now < calculate_next_aligned_core tz now ∧
    (isTopOfHour tz now →
      calculate_next_aligned_core tz now = now + nsPerHour ∧
      isTopOfHour tz (calculate_next_aligned_core tz now) ∧
      ∀ u, now < u → isTopOfHour tz u → calculate_next_aligned_core tz now ≤ u) ∧
    (¬ isTopOfHour tz now → localHour tz now + 1 ≤ 23 →
      isTopOfHour tz (calculate_next_aligned_core tz now) ∧
      ∀ u, now < u → isTopOfHour tz u → calculate_next_aligned_core tz now ≤ u) ∧
    (¬ isTopOfHour tz now → ¬ localHour tz now + 1 ≤ 23 →
      with_ymd_and_hms_hour tz now (localHour tz now + 1) = none ∧
      calculate_next_aligned_core tz now = now + nsPerHour) := by
  refine ⟨aligned_core_gt tz now, fun hb => ⟨aligned_core_of_boundary tz now hb,
      aligned_core_top tz now (Or.inl hb), fun u hu htop =>
      next_top_minimal tz now u _ (aligned_core_local tz now (Or.inl hb)) hu htop⟩,
    fun hb h23 => ⟨aligned_core_top tz now (Or.inr h23), fun u hu htop =>
      next_top_minimal tz now u _ (aligned_core_local tz now (Or.inr h23)) hu htop⟩,
    fun hb h23 => ⟨with_hour_succ_none tz now h23, aligned_core_of_high tz now hb h23⟩⟩

/-- Witness for C4 at a concrete input: in `Europe/Brussels` (offset +1h) at
00:30:00 UTC (01:30 local), the aligned schedule fires at 01:00:00 UTC
(02:00 local), the next local top-of-hour. -/
theorem aligned_next_run_top_of_hour_witness :
    isTopOfHour { offsetSeconds := 3600 }
        (calculate_next_aligned_core { offsetSeconds := 3600 } 1800000000000) ∧
      calculate_next_aligned_core { offsetSeconds := 3600 } 1800000000000 ≤ 3600000000000 := by
  have h := aligned_next_run_top_of_hour { offsetSeconds := 3600 } 1800000000000
  have h3 := h.2.2.1 (by decide) (by decide)
  exact ⟨h3.1, h3.2 3600000000000 (by decide) (by decide)⟩

/-- C3 is false as stated, at three accepted configurations:
`Config::from_env` accepts `NETSPEED_INTERVAL_SECONDS=0`, for which
`calculate_next_run` at `now = 0` returns `now` itself (not strictly after);
it accepts the u64 maximum 18446744073709551615, which the source's
`as i64` cast wraps to -1, scheduling the next run one second strictly
*before* `now`; and it accepts 10^16, whose wrapped value exceeds chrono's
`Duration::seconds` bound, so the computation panics instead of returning a
time at all. -/
theorem calculate_next_run_interval_zero_not_after :
    (from_env tzParseFixed envInterval0 = .ok interval0Config ∧
      calculate_next_run cronParseReject upcomingNone tzParseFixed
        interval0Config.schedule 0 = .ok 0 ∧
      ¬ (0 : NanoTime) < 0) ∧
    (from_env tzParseFixed envIntervalMax = .ok intervalMaxConfig ∧
      calculate_next_run cronParseReject upcomingNone tzParseFixed
        intervalMaxConfig.schedule 0 = .ok (-1000000000) ∧
      (-1000000000 : NanoTime) < 0) ∧
    (from_env tzParseFixed envIntervalHuge = .ok intervalHugeConfig ∧
      calculate_next_run cronParseReject upcomingNone tzParseFixed
        intervalHugeConfig.schedule 0 = .error SchedulerPanic.durationOutOfBounds) := by
  exact ⟨⟨by decide, by decide, by decide⟩, ⟨by decide, by decide, by decide⟩,
    by decide, by decide⟩

/-- C3 amended: `calculate_next_run` returns an instant strictly after `now`
in HourlyAligned mode always, in Cron mode whenever it returns at all (given
the cron library's contract that upcoming firing times are strictly in the
future), and in Interval mode whenever the configured `interval_seconds`,
cast wrapping to a signed 64-bit value as the source does, is at least 1
(and the computation returns rather than panicking on chrono's
`Duration::seconds` bound); configuration accepts `interval_seconds = 0`,
which returns exactly `now`, and values of `2^63` and above, which wrap
negative and schedule strictly before `now`. -/
theorem calculate_next_run_strictly_after {C : Type} (cronParse : String → Option C)
    (upcoming : C → Tz → NanoTime → Option NanoTime)
    (tzParse : String → Option Tz) (sched : ScheduleConfig) (now t : NanoTime)
    (hup : ∀ s tz u, upcoming s tz now = some u → now < u)
    (hint : sched.mode = .interval → 1 ≤ i64_wrap sched.interval_seconds)
    (hok : calculate_next_run cronParse upcoming tzParse sched now = .ok t) :
    now < t := by
  cases hmode : sched.mode with
  | hourlyAligned =>
    simp only [calculate_next_run, hmode, calculate_next_aligned_run] at hok
    cases htz : tzParse sched.timezone with
    | none =>
      rw [htz] at hok
      exact Except.noConfusion hok
    | some tz =>
      simp only [htz, Except.ok.injEq] at hok
      subst hok
      exact aligned_core_gt tz now
  | interval =>
    simp only [calculate_next_run, hmode, calculate_next_interval_run] at hok
    have h1 : 1 ≤ i64_wrap sched.interval_seconds := hint hmode
    by_cases hb : i64_wrap sched.interval_seconds < -chronoMaxSeconds ∨
        chronoMaxSeconds < i64_wrap sched.interval_seconds
    · rw [if_pos hb] at hok
      exact Except.noConfusion hok
    · rw [if_neg hb] at hok
      simp only [Except.ok.injEq] at hok
      subst hok
      have h2 : 0 < i64_wrap sched.interval_seconds * nsPerSec :=
        mul_pos (by linarith) (by unfold nsPerSec; norm_num)
      linarith
  | cron =>
    simp only [calculate_next_run, hmode, calculate_next_cron_run] at hok
    cases hexpr : sched.cron_expression with
    | none =>
      rw [hexpr] at hok
      exact Except.noConfusion hok
    | some expr =>
      simp only [hexpr] at hok
      cases hparse : cronParse expr with
      | none =>
        rw [hparse] at hok
        exact Except.noConfusion hok
      | some s =>
        simp only [hparse] at hok
        cases htz : tzParse sched.timezone with
        | none =>
          rw [htz] at hok
          exact Except.noConfusion hok
        | some tz =>
          simp only [htz, Except.ok.injEq] at hok
          subst hok
          cases hup' : upcoming s tz now with
          | none =>
            simp only [hup', Option.getD_none]
            unfold nsPerSec
            linarith
          | some u =>
            simp only [hup', Option.getD_some]
            exact hup s tz u hup'

/-- Witness for the amended C3 at a concrete input: Interval mode with 3600
seconds at `now = 0` yields an instant strictly after 0. -/
theorem calculate_next_run_strictly_after_witness : (0 : NanoTime) < 3600000000000 :=
  calculate_next_run_strictly_after cronParseReject upcomingNone tzParseFixed
    { mode := .interval, interval_seconds := 3600, cron_expression := none,
      timezone := "UTC", allow_overlap := false } 0 3600000000000
    (fun s tz u h => Option.noConfusion h) (fun _ => by decide) (by decide)

/-- C7 is false as stated: for the payload `{"download":{"bandwidth":1}}`,
both `upload.bandwidth` and `ping.latency` are missing, yet parsing names
only the first missing field, not the comma-joined list of every missing
required field. -/
theorem missing_fields_only_first_named :
    parse_speedtest_output payloadOnlyDownload
      = .error (ErrorCategory.missingFields "upload.bandwidth") ∧
    "upload.bandwidth" ≠ "upload.bandwidth,ping.latency" := by
  refine ⟨rfl, by decide⟩

/-- C7 amended: for every successfully JSON-parsed payload missing one or
more required fields, parsing returns `Failure(MissingFields(f))` where `f`
names the first missing required field in the order `download.bandwidth`,
`upload.bandwidth`, `ping.latency`; in particular a payload lacking
`download` yields `MissingFields("download.bandwidth")`. -/
theorem parse_missing_fields_first (j : Json) (out : SpeedtestOutput)
    (hdec : decodeSpeedtestOutput j = .ok out) :
    (out.download.bind BandwidthInfo.bandwidth = none →
      parse_speedtest_output j
        = .error (ErrorCategory.missingFields "download.bandwidth")) ∧
    (∀ db, out.download.bind BandwidthInfo.bandwidth = some db →
      out.upload.bind BandwidthInfo.bandwidth = none →
      parse_speedtest_output j
        = .error (ErrorCategory.missingFields "upload.bandwidth")) ∧
    (∀ db ub, out.download.bind BandwidthInfo.bandwidth = some db →
      out.upload.bind BandwidthInfo.bandwidth = some ub →
      out.ping.bind PingInfo.latency = none →
      parse_speedtest_output j
        = .error (ErrorCategory.missingFields "ping.latency")) := by
  unfold parse_speedtest_output
  refine ⟨fun hd => ?_, fun db hd hu => ?_, fun db ub hd hu hl => ?_⟩
  · simp only [hdec, hd]
  · simp only [hdec, hd, hu]
  · simp only [hdec, hd, hu, hl]

/-- Witness for the amended C7: the payload lacking `download` parses to
`MissingFields("download.bandwidth")`. -/
theorem parse_missing_fields_first_witness :
    parse_speedtest_output payloadNoDownload
      = .error (ErrorCategory.missingFields "download.bandwidth") :=
  (parse_missing_fields_first payloadNoDownload
    { download := none
      upload := some { bandwidth := some 5262500 }
      ping := some { latency := some 18.4, jitter := none } } rfl).1 rfl

/-- C8: every payload that decodes with all required fields present and
non-negative values parses successfully with bandwidths multiplied by 8
(bytes/s to bits/s), latency and jitter divided by 1000 (ms to s), and
`packet_loss_ratio` always `None`. -/
theorem parse_success_normalizes_units (j : Json) (out : SpeedtestOutput)
    (db ub l : ℚ) (hdec : decodeSpeedtestOutput j = .ok out)
    (hd : out.download.bind BandwidthInfo.bandwidth = some db)
    (hu : out.upload.bind BandwidthInfo.bandwidth = some ub)
    (hl : out.ping.bind PingInfo.latency = some l)
    (hdb : 0 ≤ db) (hub : 0 ≤ ub) (hl0 : 0 ≤ l) :
    parse_speedtest_output j = .ok
      { download_bps := db * 8
        upload_bps := ub * 8
        latency_seconds := l / 1000
        jitter_seconds := (out.ping.bind PingInfo.jitter).map (fun x => x / 1000)
        packet_loss_ratio := none } := by
  have h1 : ¬ db * 8 < 0 := not_lt.mpr (by positivity)
  have h2 : ¬ ub * 8 < 0 := not_lt.mpr (by positivity)
  have h3 : ¬ l / 1000 < 0 := not_lt.mpr (by positivity)
  unfold parse_speedtest_output
  simp only [hdec, hd, hu, hl, if_neg h1, if_neg h2, if_neg h3]

/-- Witness for C8, the spec's round-trip example: the example payload
parses to download = 812300000 bps, upload = 42100000 bps,
latency = 0.0184 s, jitter = 0.0021 s, packet loss `None`. -/
theorem parse_success_normalizes_units_witness :
    parse_speedtest_output examplePayload = .ok
      { download_bps := 812300000
        upload_bps := 42100000
        latency_seconds := 0.0184
        jitter_seconds := some 0.0021
        packet_loss_ratio := none } := by
  have h := parse_success_normalizes_units examplePayload
    { download := some { bandwidth := some 101537500 }
      upload := some { bandwidth := some 5262500 }
      ping := some { latency := some 18.4, jitter := some 2.1 } }
    101537500 5262500 18.4 rfl rfl rfl rfl (by norm_num) (by norm_num) (by norm_num)
  rw [h]
  refine congrArg Except.ok ?_
  simp only [Option.bind_some, Option.map_some]
  norm_num

/-- C9: for every spawned process that completes in time with a failing exit
status, `execute_speedtest` returns `Failure(CommandFailed(code))` where the
code is the process's numeric exit code, or -1 when the platform reports
none (killed by a signal); standard output is not parsed (the outcome is
independent of stdout). -/
theorem command_failed_exit_code (command : String) (p : ProcBehavior)
    (timeout_seconds : Nat) (hc : completesWithin p timeout_seconds = true)
    (hw : p.waitError = none) (hs : p.status.success = false) :
    execute_speedtest command (.spawned p) timeout_seconds
      = (.error (ErrorCategory.commandFailed (p.status.code.getD (-1))), false) ∧
    ∀ out : Option Json,
      execute_speedtest command (.spawned { p with stdout := out }) timeout_seconds
        = execute_speedtest command (.spawned p) timeout_seconds := by
  have hcs : ∀ out : Option Json,
      completesWithin
        { runSeconds := p.runSeconds, waitError := none, status := p.status,
          stdout := out } timeout_seconds = true := by
    intro out
    simpa [completesWithin] using hc
  constructor
  · simp only [execute_speedtest, hc, hw, hs, if_true, Bool.false_eq_true, if_false]
  · intro out
    simp only [execute_speedtest, hc, hcs out, hw, hs, if_true, Bool.false_eq_true,
      if_false]

/-- Witness for C9 at a concrete input: a process exiting after 5 seconds
(within the 120 second bound) with a failing status and no reportable exit
code yields `CommandFailed(-1)`. -/
theorem command_failed_exit_code_witness :
    execute_speedtest "speedtest"
      (.spawned
        { runSeconds := some 5
          waitError := none
          status := { success := false, code := none }
          stdout := none }) 120
      = (.error (ErrorCategory.commandFailed (-1)), false) :=
  (command_failed_exit_code "speedtest"
    { runSeconds := some 5
      waitError := none
      status := { success := false, code := none }
      stdout := none } 120 (by decide) rfl rfl).1

/-- C6 evidence: for every spawned process that does not exit within
`timeout_seconds`, `execute_speedtest` returns
`Failure(Timeout(timeout_seconds))` — the payload is the configured timeout,
as the claim states — but the child process is left running when the
function returns (the source sets no `kill_on_drop(true)` and never calls
`kill`, so dropping the timed-out `wait_with_output` future leaks the
child), contradicting the claim's kill/reap requirement. -/
theorem execute_timeout_classification (command : String) (p : ProcBehavior)
    (timeout_seconds : Nat) (h : completesWithin p timeout_seconds = false) :
    execute_speedtest command (.spawned p) timeout_seconds
      = (.error (ErrorCategory.timeout timeout_seconds), true) := by
  simp only [execute_speedtest, h, Bool.false_eq_true, if_false]

/-- Witness for C6 at a concrete input: a process needing 300 seconds
against a 120 second bound times out with payload 120 and is left running. -/
theorem execute_timeout_classification_witness :
    execute_speedtest "speedtest"
      (.spawned
        { runSeconds := some 300
          waitError := none
          status := { success := true, code := some 0 }
          stdout := none }) 120
      = (.error (ErrorCategory.timeout 120), true) :=
  execute_timeout_classification "speedtest"
    { runSeconds := some 300
      waitError := none
      status := { success := true, code := some 0 }
      stdout := none } 120 (by decide)

/-- C5 evidence: startup validation in `Config::from_env` accepts a
malformed cron expression (`NETSPEED_SCHEDULE="not a cron expression"` in
Cron mode) because it never parses the expression — only the timezone is
validated; at runtime `calculate_next_run` then panics at
`Schedule::from_str(...).expect("Invalid cron expression")` instead of
falling back to `now + 1 minute`, contradicting the claim that invalid cron
expressions are rejected at startup and that the runtime computation never
faults. -/
theorem invalid_cron_accepted_at_startup_then_panics :
    from_env tzParseFixed envBadCron = .ok badCronConfig ∧
    calculate_next_run cronParseReject upcomingNone tzParseFixed
      badCronConfig.schedule 0 = .error SchedulerPanic.invalidCronExpression := by
  refine ⟨by decide, by decide⟩

/-- Inverting a successful `Config::from_env`: success requires the stored
timezone string to have parsed. -/
theorem from_env_ok_timezone_parses (tzParse : String → Option Tz)
    (env : String → Option String) (cfg : Config)
    (hok : from_env tzParse env = .ok cfg) :
    ∃ tz, tzParse cfg.schedule.timezone = some tz := by
  unfold from_env at hok
  cases hm : scheduleModeOfString ((env "NETSPEED_SCHEDULE_MODE").getD "hourly_aligned") with
  | error e => simp only [hm] at hok; exact Except.noConfusion hok
  | ok schedule_mode =>
  simp only [hm] at hok
  cases hi : parseU64 ((env "NETSPEED_INTERVAL_SECONDS").getD "3600") with
  | none => simp only [hi] at hok; exact Except.noConfusion hok
  | some interval_seconds =>
  simp only [hi] at hok
  cases htz : tzParse ((env "NETSPEED_TIMEZONE").getD "Europe/Brussels") with
  | none => simp only [htz] at hok; exact Except.noConfusion hok
  | some tzv =>
  simp only [htz] at hok
  cases hb : parseBoolStr ((env "NETSPEED_ALLOW_OVERLAP").getD "false") with
  | none => simp only [hb] at hok; exact Except.noConfusion hok
  | some allow_overlap =>
  simp only [hb] at hok
  cases ht : parseU64 ((env "NETSPEED_TIMEOUT_SECONDS").getD "120") with
  | none => simp only [ht] at hok; exact Except.noConfusion hok
  | some timeout_seconds =>
  simp only [ht] at hok
  by_cases h0 : timeout_seconds = 0
  · rw [if_pos h0] at hok
    exact Except.noConfusion hok
  · rw [if_neg h0] at hok
    injection hok with h
    subst h
    exact ⟨tzv, htz⟩

/-- C10: for every configuration that `Config::from_env` returns
successfully, the stored timezone string parses (it was validated at
startup), so neither `calculate_next_aligned_run` nor
`calculate_next_cron_run` can hit the `expect("Invalid timezone")` panic for
that configuration. -/
theorem from_env_ok_no_timezone_panic {C : Type} (cronParse : String → Option C)
    (upcoming : C → Tz → NanoTime → Option NanoTime)
    (tzParse : String → Option Tz) (env : String → Option String)
    (cfg : Config) (now : NanoTime)
    (hok : from_env tzParse env = .ok cfg) :
    (∃ tz, tzParse cfg.schedule.timezone = some tz) ∧
    (∃ t, calculate_next_aligned_run tzParse cfg.schedule now = .ok t) ∧
    calculate_next_cron_run cronParse upcoming tzParse cfg.schedule now
      ≠ .error SchedulerPanic.invalidTimezone := by
  obtain ⟨tzv, htz⟩ := from_env_ok_timezone_parses tzParse env cfg hok
  refine ⟨⟨tzv, htz⟩, ?_, ?_⟩
  · unfold calculate_next_aligned_run
    rw [htz]
    exact ⟨_, rfl⟩
  · unfold calculate_next_cron_run
    cases hce : cfg.schedule.cron_expression with
    | none => simp
    | some expr =>
      cases hcp : cronParse expr with
      | none => simp [hcp]
      | some sch => simp [hcp, htz]

/-- Witness for C10 at a concrete input: the all-defaults configuration
(returned by `from_env` under the empty environment) cannot produce the
timezone panic in either schedule computation. -/
theorem from_env_ok_no_timezone_panic_witness :
    (∃ tz, tzParseFixed defaultConfig.schedule.timezone = some tz) ∧
    (∃ t, calculate_next_aligned_run tzParseFixed defaultConfig.schedule 0 = .ok t) ∧
    calculate_next_cron_run cronParseReject upcomingNone tzParseFixed
      defaultConfig.schedule 0 ≠ .error SchedulerPanic.invalidTimezone :=
  from_env_ok_no_timezone_panic cronParseReject upcomingNone tzParseFixed envEmpty
    defaultConfig 0 (by decide)

/-- `Scheduler::execute_run` stores `false` into the overlap flag on every
path: both the success and the failure arm fall through to the final
`store(false)`. -/
theorem execute_run_clears (hn : Bool) (no : NotifyOn) (s : SchedState) (o : RunOutcome) :
    (execute_run hn no s o).1.run_in_progress = false := by
  cases o <;> rfl

/-- The event trace of one `execute_run` is well-formed when appended to any
well-formed continuation: it sets the flag from clear, invokes the runner
exactly once while set, and clears the flag at its end. -/
theorem checkTrace_execute_run (hn : Bool) (no : NotifyOn) (s : SchedState)
    (o : RunOutcome) (rest : List Event) :
    checkTrace false 0 ((execute_run hn no s o).2 ++ rest) = checkTrace false 0 rest := by
  cases o with
  | success r =>
    unfold execute_run
    by_cases h : (hn && no.success) = true
    · simp [h, checkTrace]
    · simp only [Bool.not_eq_true] at h
      simp [h, checkTrace]
  | failure e =>
    unfold execute_run
    by_cases h : (hn && no.failure) = true
    · simp [h, checkTrace]
    · simp only [Bool.not_eq_true] at h
      simp [h, checkTrace]

/-- C1: starting from a clear overlap flag, over any finite run of the
scheduler loop with any runner outcomes, the flag is clear again at every
iteration boundary and at the end, and the full event trace satisfies the
overlap automaton: the flag is set only when clear and cleared only when
set, each flag-true interval contains exactly one runner invocation (the
flag is true for the entire duration of exactly one in-flight run), the
trace never ends with the flag stuck set, and `execute_run` clears the flag
unconditionally for every outcome. -/
theorem scheduler_overlap_flag_invariant (allow_overlap hn : Bool) (no : NotifyOn)
    (s : SchedState) (outcomes : List RunOutcome) (hs : s.run_in_progress = false) :
    (runLoop allow_overlap hn no s outcomes).1.run_in_progress = false ∧
    checkTrace false 0 (runLoop allow_overlap hn no s outcomes).2 = true ∧
    ∀ s' o, (execute_run hn no s' o).1.run_in_progress = false := by
  induction outcomes generalizing s with
  | nil => exact ⟨hs, rfl, fun s' o => execute_run_clears hn no s' o⟩
  | cons o os ih =>
    have hstep : schedulerIteration allow_overlap hn no s o = execute_run hn no s o := by
      unfold schedulerIteration
      rw [hs]
      simp
    obtain ⟨ih1, ih2, _⟩ := ih (execute_run hn no s o).1 (execute_run_clears hn no s o)
    refine ⟨?_, ?_, fun s' o' => execute_run_clears hn no s' o'⟩
    · simp only [runLoop, hstep]
      exact ih1
    · simp only [runLoop, hstep]
      rw [checkTrace_execute_run]
      exact ih2

/-- Witness for C1 at a concrete input: two iterations (one success, one
failure) from the initial state leave the flag clear and produce a
well-formed trace. -/
theorem scheduler_overlap_flag_invariant_witness :
    (runLoop false true { success := true, failure := true } initialSchedState
      [RunOutcome.success
        { download_bps := 0, upload_bps := 0, latency_seconds := 0,
          jitter_seconds := none, packet_loss_ratio := none },
       RunOutcome.failure (ErrorCategory.timeout 120)]).1.run_in_progress = false ∧
    checkTrace false 0
      (runLoop false true { success := true, failure := true } initialSchedState
        [RunOutcome.success
          { download_bps := 0, upload_bps := 0, latency_seconds := 0,
            jitter_seconds := none, packet_loss_ratio := none },
         RunOutcome.failure (ErrorCategory.timeout 120)]).2 = true :=
  have h := scheduler_overlap_flag_invariant false true { success := true, failure := true }
    initialSchedState
    [RunOutcome.success
      { download_bps := 0, upload_bps := 0, latency_seconds := 0,
        jitter_seconds := none, packet_loss_ratio := none },
     RunOutcome.failure (ErrorCategory.timeout 120)] rfl
  ⟨h.1, h.2.1⟩

/-- C2: in each iteration of the run loop, if on wake the overlap flag is
set and `allow_overlap` is false, the iteration increments the skipped
counter and does not invoke the Process Runner; in every other case (flag
clear, or overlap allowed) the Process Runner is invoked. -/
theorem scheduler_iteration_overlap_guard (allow_overlap hn : Bool) (no : NotifyOn)
    (s : SchedState) (o : RunOutcome) :
    (s.run_in_progress = true → allow_overlap = false →
      schedulerIteration allow_overlap hn no s o
        = ({ s with skippedRuns := s.skippedRuns + 1 }, [Event.countedSkipped]) ∧
      Event.runnerInvoked ∉ (schedulerIteration allow_overlap hn no s o).2) ∧
    ((s.run_in_progress = false ∨ allow_overlap = true) →
      Event.runnerInvoked ∈ (schedulerIteration allow_overlap hn no s o).2) := by
  constructor
  · intro hf hao
    have hcond : (s.run_in_progress && !allow_overlap) = true := by
      rw [hf, hao]
      rfl
    unfold schedulerIteration
    rw [if_pos hcond]
    exact ⟨rfl, by simp⟩
  · intro h
    have hcond : ¬ (s.run_in_progress && !allow_overlap) = true := by
      rcases h with h | h
      · rw [h]
        simp
      · rw [h]
        simp
    unfold schedulerIteration
    rw [if_neg hcond]
    cases o <;> simp [execute_run]

/-- Witness for C2 at concrete inputs: with the flag set and overlap
disallowed the iteration only counts a skip; with the flag clear the runner
is invoked. -/
theorem scheduler_iteration_overlap_guard_witness :
    (schedulerIteration false true { success := true, failure := true }
        { run_in_progress := true, skippedRuns := 0, successRuns := 0, failureRuns := 0 }
        (RunOutcome.failure (ErrorCategory.timeout 120))
      = ({ run_in_progress := true, skippedRuns := 1, successRuns := 0, failureRuns := 0 },
        [Event.countedSkipped])) ∧
    Event.runnerInvoked ∈
      (schedulerIteration false true { success := true, failure := true }
        initialSchedState (RunOutcome.failure (ErrorCategory.timeout 120))).2 :=
  have h1 := (scheduler_iteration_overlap_guard false true { success := true, failure := true }
    { run_in_progress := true, skippedRuns := 0, successRuns := 0, failureRuns := 0 }
    (RunOutcome.failure (ErrorCategory.timeout 120))).1 rfl rfl
  have h2 := (scheduler_iteration_overlap_guard false true { success := true, failure := true }
    initialSchedState (RunOutcome.failure (ErrorCategory.timeout 120))).2 (Or.inl rfl)
  ⟨h1.1, h2⟩
